import Mathlib

/-
Verification development for the HuskyLens2 MCP bridge
(src/huskylens_bridge.py).  The Python module is shallowly embedded:
JSON values become an inductive type, the aiohttp transport becomes
explicit behaviour parameters, Python exceptions become an explicit
result type, and each function of HuskyLensMCPClient / BridgeServer
becomes a Lean function mirroring its control flow.
-/

set_option autoImplicit false

namespace HuskyBridge

/-- JSON values as decoded by json.loads.  Numbers are modelled as
integers (the payloads relevant here are integral ids and codes);
objects are ordered key/value lists, matching insertion-ordered
Python dicts. -/
inductive Json where
  | null
  | bool (b : Bool)
  | num (n : Int)
  | str (s : String)
  | arr (elems : List Json)
  | obj (entries : List (String × Json))

/-- A Python dict decoded from JSON. -/
abbrev JDict := List (String × Json)

/-- First binding of a key in a dict, Python d[k] / d.get(k). -/
def jlookup : JDict → String → Option Json
  | [], _ => none
  | (k, v) :: rest, key => if k = key then some v else jlookup rest key

/-- Python `k in d` for a dict. -/
def hasKey (d : JDict) (k : String) : Bool :=
  (jlookup d k).isSome

/-- Python d.get(k): returns None (null) when the key is absent. -/
def jget (d : JDict) (k : String) : Json :=
  (jlookup d k).getD .null

/-- Python d.get(k, dflt). -/
def jgetD (d : JDict) (k : String) (dflt : Json) : Json :=
  (jlookup d k).getD dflt

/-- Result of running a piece of Python code: a returned value or a
raised exception (with its message). -/
inductive PyResult (α : Type) where
  | ok (val : α)
  | exn (msg : String)
deriving DecidableEq

/-- Whether the needle list occurs as a prefix of the haystack list. -/
def listStartsWith : List Char → List Char → Bool
  | [], _ => true
  | _ :: _, [] => false
  | a :: as, b :: bs => if a = b then listStartsWith as bs else false

/-- Whether the needle occurs as a contiguous sublist of the haystack. -/
def listContainsSub (needle : List Char) : List Char → Bool
  | [] => needle.isEmpty
  | a :: rest => listStartsWith needle (a :: rest) || listContainsSub needle rest

/-- Python `needle in hay` for strings (substring test). -/
def strContains (hay needle : String) : Bool :=
  listContainsSub needle.toList hay.toList

/-- Python `j == s` between a decoded JSON value and a string: true
exactly when j is that string. -/
def isStrVal (j : Json) (s : String) : Bool :=
  match j with
  | .str t => decide (t = s)
  | _ => false

/-- Python `needle in x` where x is a decoded JSON value: key membership
for dicts, element membership for lists, substring for strings, and a
TypeError for every other type. -/
def pyContains (needle : String) : Json → PyResult Bool
  | .obj entries => .ok (hasKey entries needle)
  | .arr elems => .ok (elems.any fun e => isStrVal e needle)
  | .str s => .ok (strContains s needle)
  | _ => .exn "argument is not iterable"

/-- Python truthiness of a decoded JSON value. -/
def pyTruthy : Json → Bool
  | .null => false
  | .bool b => b
  | .num n => decide (n ≠ 0)
  | .str s => !s.isEmpty
  | .arr elems => !elems.isEmpty
  | .obj entries => !entries.isEmpty

/-- Python `j == n` between a decoded JSON value and an int (bools
compare equal to 0/1 in Python). -/
def pyEqInt (j : Json) (n : Int) : Bool :=
  match j with
  | .num m => decide (m = n)
  | .bool b => decide ((if b then (1 : Int) else 0) = n)
  | _ => false

/-- Python sep.join for a list of strings. -/
def pyJoin (sep : String) : List String → String
  | [] => ""
  | [x] => x
  | x :: xs => x ++ sep ++ pyJoin sep xs

/-- Join preparation: sep.join raises TypeError unless every element of
the list is a string; this extracts the strings when it succeeds. -/
def asStrings : List Json → Option (List String)
  | [] => some []
  | .str s :: rest => (asStrings rest).map (s :: ·)
  | _ :: _ => none

/-- The uniform internal-failure envelope `{error: {code: -32603,
message}}` built at every internal failure site of the client. -/
def errorEnvelope (msg : String) : Json :=
  .obj [("error", .obj [("code", .num (-32603)), ("message", .str msg)])]

/-- Content-list traversal of _process_tool_response: each dict item
whose type field equals "text" contributes its text field (default "");
resource_link and all other items are only logged, never appended. -/
def textPartsOf : List Json → List Json
  | [] => []
  | item :: rest =>
      match item with
      | .obj kvs =>
          if isStrVal (jget kvs "type") "text" then
            jgetD kvs "text" (.str "") :: textPartsOf rest
          else textPartsOf rest
      | _ => textPartsOf rest

/-- Dispatch of _process_tool_response on the shape of the content
field: a list is traversed item by item, a bare string is a single
fragment, anything else contributes no fragments. -/
def contentParts (content : Json) : List Json :=
  match content with
  | .arr items => textPartsOf items
  | .str s => [Json.str s]
  | _ => []

/-- HuskyLensMCPClient._process_tool_response.  Error envelopes pass
through unchanged; a dict result has its content flattened to a single
newline-joined text and is re-wrapped with the original id; a non-dict
result passes the response through unchanged.  Non-dict responses model
the Python `in` / attribute semantics: a string or list containing
"error" is returned as is, anything else raises. -/
def process_tool_response : Json → PyResult Json
  | .obj entries =>
      if hasKey entries "error" then .ok (.obj entries)
      else
        match jgetD entries "result" (.obj []) with
        | .obj res =>
            let isError := jgetD res "isError" (.bool false)
            let parts : List Json := contentParts (jgetD res "content" (.arr []))
            match asStrings parts with
            | some texts =>
                .ok (.obj [("jsonrpc", .str "2.0"),
                           ("id", jget entries "id"),
                           ("result", .obj [("isError", isError),
                                            ("content", .str (pyJoin "\n" texts))])])
            | none => .exn "sequence item: expected str instance"
        | _ => .ok (.obj entries)
  | .str s =>
      if strContains s "error" then .ok (.str s)
      else .exn "str object has no attribute get"
  | .arr elems =>
      if elems.any (fun e => isStrVal e "error") then .ok (.arr elems)
      else .exn "list object has no attribute get"
  | _ => .exn "argument of type is not iterable"

/-- Mutable state of a HuskyLensMCPClient: the configured base URL and
the three fields assigned in __init__ (request_id starts at 0; session
id and message endpoint start unset). -/
structure SessionState where
  server_url : String
  request_id : Nat
  session_id : Option String
  message_url : Option String

/-- Python url.rstrip with the slash character. -/
def rstripSlash (s : String) : String :=
  String.mk (s.toList.reverse.dropWhile (fun c => c = '/')).reverse

/-- HuskyLensMCPClient.__init__. -/
def initState (serverUrl : String) : SessionState :=
  { server_url := rstripSlash serverUrl
    request_id := 0
    session_id := none
    message_url := none }

/-- HuskyLensMCPClient._get_next_id: increment the counter and return
its new value. -/
def getNextId (st : SessionState) : Nat × SessionState :=
  (st.request_id + 1, { st with request_id := st.request_id + 1 })

/-- Shape of one line of the /sse stream as classified by
_establish_session, following its branch order: a data line whose
payload contains session_id= and in which the hex-like regex finds a
token sid (raw is the full payload); a data line containing
session_id= where the regex finds nothing; a data line without
session_id= whose payload starts with /message; any other data line;
a non-data line. -/
inductive EstPayload where
  | sessionMatch (sid : String) (raw : String)
  | sessionNoMatch
  | messagePath (raw : String)
  | otherData

/-- A line read while establishing the session. -/
inductive EstLine where
  | data (payload : EstPayload)
  | notData

/-- How the establishment stream terminates when no line has matched:
a clean end of stream, or an exception raised while reading. -/
inductive StreamEnd where
  | eof
  | err

/-- HuskyLensMCPClient._establish_session: scan stream lines in order;
the first sessionMatch or messagePath data line sets the session state
and breaks; other lines are skipped.  If the stream ends cleanly first,
the method returns normally (state untouched); if reading raises, the
exception is logged and re-raised. -/
def establishScan (st : SessionState) : List EstLine → StreamEnd → PyResult SessionState
  | [], .eof => .ok st
  | [], .err => .exn "stream read failed"
  | .data (.sessionMatch sid raw) :: _, _ =>
      .ok { st with session_id := some sid, message_url := some (st.server_url ++ raw) }
  | .data (.messagePath raw) :: _, _ =>
      .ok { st with message_url := some (st.server_url ++ raw) }
  | .data .sessionNoMatch :: rest, e => establishScan st rest e
  | .data .otherData :: rest, e => establishScan st rest e
  | .notData :: rest, e => establishScan st rest e

/-- Payload of a data line of an SSE response body, as the two scan
loops classify it: the terminal sentinel (strips to [DONE]); a payload
that json.loads decodes to j; an unparseable payload that str.isdigit
accepts (for example a numeral with a leading zero); any other
unparseable payload. -/
inductive DataPayload where
  | done
  | json (j : Json)
  | digits
  | garbage

/-- One line of an SSE response body. -/
inductive SSEBodyLine where
  | data (payload : DataPayload)
  | notData

/-- The scan in call_tool over a data-prefixed POST body: return the
payload of the first data line that is not the sentinel and parses as
JSON; skip everything else.  Running off the end means call_tool falls
through the loop. -/
def sseBodyScan : List SSEBodyLine → Option Json
  | [] => none
  | .data (.json j) :: _ => some j
  | .data .done :: rest => sseBodyScan rest
  | .data .digits :: rest => sseBodyScan rest
  | .data .garbage :: rest => sseBodyScan rest
  | .notData :: rest => sseBodyScan rest

/-- The scan in _call_tool_via_sse: the sentinel breaks the loop with
no response; a data line decoding to a dict whose id field equals the
request id (Python ==) is the response; bare numerals, other
unparseable payloads, non-dict JSON and non-matching dicts are all
skipped. -/
def sseFallbackScan (rid : Nat) : List SSEBodyLine → Option JDict
  | [] => none
  | .data .done :: _ => none
  | .data (.json (.obj kvs)) :: rest =>
      if pyEqInt (jget kvs "id") (rid : Int) then some kvs
      else sseFallbackScan rid rest
  | .data (.json _) :: rest => sseFallbackScan rid rest
  | .data .digits :: rest => sseFallbackScan rid rest
  | .data .garbage :: rest => sseFallbackScan rid rest
  | .notData :: rest => sseFallbackScan rid rest

/-- Outbound JSON-RPC request envelope {method, params:{name,
arguments}, jsonrpc, id} as built by call_tool and
_call_tool_via_sse. -/
structure Request where
  method : String
  name : String
  arguments : Json
  id : Nat

/-- The request envelope both call paths construct. -/
def mkRequest (toolName : String) (args : Json) (rid : Nat) : Request :=
  { method := "tools/call", name := toolName, arguments := args, id := rid }

/-- Behaviour of the POST to the /sse endpoint made by
_call_tool_via_sse: the POST (or reading its body) raises, or it yields
a stream of body lines. -/
inductive SSEPostResponse where
  | exn (msg : String)
  | stream (lines : List SSEBodyLine)

/-- HuskyLensMCPClient._call_tool_via_sse: allocate a fresh id, POST the
request to /sse, scan the streamed lines for the matching dict, process
it; an exhausted scan yields the no-response envelope and any exception
(including one from _process_tool_response) is caught and converted to
an envelope.  Returns (new state, request sent, returned value). -/
def call_tool_via_sse (st : SessionState) (toolName : String) (args : Json)
    (resp : SSEPostResponse) : SessionState × Request × Json :=
  let rid := (getNextId st).1
  let st1 := (getNextId st).2
  let req := mkRequest toolName args rid
  let value : Json :=
    match resp with
    | .exn msg => errorEnvelope msg
    | .stream lines =>
        match sseFallbackScan rid lines with
        | some kvs =>
            match process_tool_response (.obj kvs) with
            | .ok v => v
            | .exn msg => errorEnvelope msg
        | none => errorEnvelope "No response received"
  (st1, req, value)

/-- Body of a 200 response to the call_tool POST: either it starts with
the data prefix (and splits into SSE body lines), or it does not and
json.loads is attempted on the whole body (parsed is its result). -/
inductive PostBody where
  | sse (lines : List SSEBodyLine)
  | direct (parsed : Option Json)

/-- Behaviour of the POST to the message endpoint made by call_tool:
a timeout, some other transport exception, or an HTTP status with a
body. -/
inductive PostResponse where
  | timeout
  | exn (msg : String)
  | status (code : Nat) (body : PostBody)

/-- All transport behaviour one call_tool invocation can consume: the
inline establishment stream (read only when no message endpoint
exists), the POST response, the re-establishment stream (read only in
the exception handler), and the fallback POST to /sse (used only when
the body is neither SSE-shaped nor JSON). -/
structure CallEnv where
  firstEstablish : List EstLine × StreamEnd
  postResp : PostResponse
  reEstablish : List EstLine × StreamEnd
  fallbackResp : SSEPostResponse

/-- Observable outcome of one call_tool invocation: the returned Python
value (some dict/value, or none for a bare `return`-less fall-through
returning None) with the final state, or a propagated exception;
together with the list of request envelopes sent upstream. -/
structure CallTrace where
  result : PyResult (SessionState × Option Json)
  sent : List Request

/-- The `except Exception` handler of call_tool: log, re-attempt
establishment (whose own exception would propagate), then return the
-32603 envelope with the original failure description. -/
def exceptPath (st : SessionState) (msg : String) (re : List EstLine × StreamEnd)
    (sent : List Request) : CallTrace :=
  match establishScan st re.1 re.2 with
  | .ok st2 => { result := .ok (st2, some (errorEnvelope msg)), sent := sent }
  | .exn m2 => { result := .exn m2, sent := sent }

/-- The try block of call_tool: the POST to the message endpoint and
the three-way interpretation of a 200 body (SSE scan / direct JSON /
fallback via _call_tool_via_sse), together with the timeout and
generic exception handlers around it.  st2 is the state after id
allocation and req the envelope being POSTed. -/
def callToolTry (st2 : SessionState) (req : Request) (toolName : String)
    (args : Json) (env : CallEnv) : CallTrace :=
  match env.postResp with
  | .timeout =>
      { result := .ok (st2, some (errorEnvelope "Request timeout")), sent := [req] }
  | .exn m => exceptPath st2 m env.reEstablish [req]
  | .status code body =>
    if code = 200 then
      match body with
      | .sse lines =>
        match sseBodyScan lines with
        | some j =>
            match process_tool_response j with
            | .ok v => { result := .ok (st2, some v), sent := [req] }
            | .exn m => exceptPath st2 m env.reEstablish [req]
        | none => { result := .ok (st2, none), sent := [req] }
      | .direct parsed =>
        match parsed with
        | some j =>
            match process_tool_response j with
            | .ok v => { result := .ok (st2, some v), sent := [req] }
            | .exn m => exceptPath st2 m env.reEstablish [req]
        | none =>
            let fb := call_tool_via_sse st2 toolName args env.fallbackResp
            { result := .ok (fb.1, some fb.2.2), sent := [req, fb.2.1] }
    else
      { result := .ok (st2, some (errorEnvelope ("HTTP " ++ toString code)))
        sent := [req] }

/-- HuskyLensMCPClient.call_tool, line for line: inline establishment
when the message endpoint is unset (outside the try block, so its
exception propagates), the endpoint re-check, id allocation, and the
try block above. -/
def call_tool (st0 : SessionState) (toolName : String) (args : Json)
    (env : CallEnv) : CallTrace :=
  match (match st0.message_url with
         | none => establishScan st0 env.firstEstablish.1 env.firstEstablish.2
         | some _ => .ok st0) with
  | .exn m => { result := .exn m, sent := [] }
  | .ok st1 =>
    match st1.message_url with
    | none =>
        { result := .ok (st1, some (errorEnvelope "Failed to establish session"))
          sent := [] }
    | some _ =>
        callToolTry (getNextId st1).2 (mkRequest toolName args (getNextId st1).1)
          toolName args env

/-- Body rendered by a BridgeServer HTTP response. -/
inductive HTTPBody where
  | jsonBody (j : Json)
  | textBody (s : String)

/-- The result rendering of BridgeServer.handle_tool_call after the
client call: when the call result has a result member carrying a
content member, string content is rendered as parsed JSON when it
parses and as plain text otherwise (null content renders as an empty
text body, any other non-string content raises into the 500 handler);
otherwise the full result is rendered as JSON.  Membership tests and
subscripts follow Python semantics, so non-dict shapes can raise into
the 500 handler. -/
def renderCallResult (callRes : Json) (jsonParse : String → Option Json) :
    Nat × HTTPBody :=
  match pyContains "result" callRes with
  | .exn m => (500, .jsonBody (.obj [("error", .str m)]))
  | .ok false => (200, .jsonBody callRes)
  | .ok true =>
    match callRes with
    | .obj res =>
      let rv := jget res "result"
      match pyContains "content" rv with
      | .exn m => (500, .jsonBody (.obj [("error", .str m)]))
      | .ok false => (200, .jsonBody callRes)
      | .ok true =>
        match rv with
        | .obj r =>
          match jget r "content" with
          | .str s =>
              match jsonParse s with
              | some parsed => (200, .jsonBody parsed)
              | none => (200, .textBody s)
          | .null => (200, .textBody "")
          | _ => (500, .jsonBody (.obj [("error", .str "text argument must be str")]))
        | _ => (500, .jsonBody (.obj [("error", .str "string indices must be integers")]))
    | _ => (500, .jsonBody (.obj [("error", .str "object is not subscriptable")]))

/-- BridgeServer.handle_tool_call: parsedBody is the json.loads result
of the request body (none when it raises, answered 400 Invalid JSON);
a dict body without a truthy tool member is answered 400 with the
missing-parameter error; otherwise the client is called and its result
rendered; a non-dict body raises into the 500 handler.  callRes stands
for the value call_tool returns and jsonParse for json.loads on the
content string. -/
def handle_tool_call (parsedBody : Option Json) (callRes : Json)
    (jsonParse : String → Option Json) : Nat × HTTPBody :=
  match parsedBody with
  | none => (400, .jsonBody (.obj [("error", .str "Invalid JSON")]))
  | some (.obj bodyObj) =>
      if pyTruthy (jget bodyObj "tool") then renderCallResult callRes jsonParse
      else (400, .jsonBody (.obj [("error", .str "Missing \x27tool\x27 parameter")]))
  | some _ => (500, .jsonBody (.obj [("error", .str "object has no attribute get")]))

/-- Ids handed out by n successive calls to _get_next_id, in order. -/
def issuedIds (st : SessionState) : Nat → List Nat
  | 0 => []
  | n + 1 => (getNextId st).1 :: issuedIds (getNextId st).2 n

theorem issuedIds_eq : ∀ (n : Nat) (st : SessionState),
    issuedIds st n = (List.range n).map (fun i => st.request_id + i + 1)
  | 0, _ => rfl
  | n + 1, st => by
      have ih := issuedIds_eq n { st with request_id := st.request_id + 1 }
      show (st.request_id + 1) :: issuedIds { st with request_id := st.request_id + 1 } n
          = (List.range (n + 1)).map (fun i => st.request_id + i + 1)
      rw [ih, List.range_succ_eq_map, List.map_cons, List.map_map]
      show (st.request_id + 1) :: (List.range n).map (fun i => st.request_id + 1 + i + 1)
          = (st.request_id + 0 + 1) :: (List.range n).map ((fun i => st.request_id + i + 1) ∘ Nat.succ)
      rw [show st.request_id + 0 + 1 = st.request_id + 1 from rfl]
      congr 1
      apply List.map_congr_left
      intro i _
      show st.request_id + 1 + i + 1 = st.request_id + (i + 1) + 1
      omega

/-- C6: correlation ids issued by successive calls within one process
lifetime form the strictly increasing sequence 1, 2, 3, ... starting
from a freshly initialized client; in particular they are pairwise
distinct (never reused) and the first issued id is 1. -/
theorem c6_correlation_ids (url : String) (n : Nat) :
    issuedIds (initState url) n = (List.range n).map (· + 1)
    ∧ (issuedIds (initState url) n).Pairwise (· < ·)
    ∧ (issuedIds (initState url) n).Nodup
    ∧ (issuedIds (initState url) n).head? = if n = 0 then none else some 1 := by
  have hids : issuedIds (initState url) n = (List.range n).map (· + 1) := by
    rw [issuedIds_eq]
    apply List.map_congr_left
    intro i _
    simp [initState]
  have hpw : (issuedIds (initState url) n).Pairwise (· < ·) := by
    rw [hids]
    exact (List.pairwise_lt_range n).map _ (by omega)
  refine ⟨hids, hpw, hpw.imp (fun h => Nat.ne_of_lt h), ?_⟩
  cases n with
  | zero => simp [issuedIds]
  | succ k => rw [hids, List.range_succ_eq_map]; rfl

/-- C7: normalization is idempotent — whenever _process_tool_response
returns a value, running it again on that value returns the same value
unchanged. -/
theorem c7_normalization_idempotent (r d : Json)
    (h : process_tool_response r = .ok d) :
    process_tool_response d = .ok d := by
  cases r with
  | null => simp [process_tool_response] at h
  | bool b => simp [process_tool_response] at h
  | num n => simp [process_tool_response] at h
  | str s =>
      by_cases hc : strContains s "error"
      · simp [process_tool_response, hc] at h
        subst h
        simp [process_tool_response, hc]
      · simp [process_tool_response, hc] at h
  | arr elems =>
      by_cases hc : elems.any (fun e => isStrVal e "error")
      · simp [process_tool_response, hc] at h
        subst h
        simp [process_tool_response, hc]
      · simp [process_tool_response, hc] at h
  | obj entries =>
      by_cases he : hasKey entries "error"
      · simp [process_tool_response, he] at h
        subst h
        simp [process_tool_response, he]
      · rcases hres : jgetD entries "result" (.obj []) with _ | b | m | s | elems | res
        · simp [process_tool_response, he, hres] at h
          subst h
          simp [process_tool_response, he, hres]
        · simp [process_tool_response, he, hres] at h
          subst h
          simp [process_tool_response, he, hres]
        · simp [process_tool_response, he, hres] at h
          subst h
          simp [process_tool_response, he, hres]
        · simp [process_tool_response, he, hres] at h
          subst h
          simp [process_tool_response, he, hres]
        · simp [process_tool_response, he, hres] at h
          subst h
          simp [process_tool_response, he, hres]
        · rcases hstr : asStrings (contentParts (jgetD res "content" (.arr []))) with _ | texts
          · simp [process_tool_response, he, hres, hstr] at h
          · simp [process_tool_response, he, hres, hstr] at h
            subst h
            simp [process_tool_response, hasKey, jlookup, jgetD, jget,
                  contentParts, asStrings, pyJoin]

/-- C1: at the failing input — a 200 POST response whose data-prefixed
body consists only of the sentinel line and an unparseable line — the
scan loop of call_tool finds no payload, the function falls off the end
of the branch, and the call returns Python None (.ok with value none):
no -32603 SessionError envelope is produced, contradicting the
claim. -/
theorem c1_sse_exhausted_returns_none :
    (call_tool
        { server_url := "http://h", request_id := 0,
          session_id := some "abc", message_url := some "http://h/message?session_id=abc" }
        "Huskylens2:get_recognition_result" (.obj [])
        { firstEstablish := ([], StreamEnd.eof)
          postResp := PostResponse.status 200 (PostBody.sse
            [SSEBodyLine.data DataPayload.done, SSEBodyLine.data DataPayload.garbage])
          reEstablish := ([], StreamEnd.eof)
          fallbackResp := SSEPostResponse.exn "unused" }).result
      = .ok ({ server_url := "http://h", request_id := 1,
               session_id := some "abc", message_url := some "http://h/message?session_id=abc" },
             none) := rfl

/-- C2 counterexample: establishment run against a stream that ends
cleanly before any matching line appears returns normally with the
session state still unset, instead of signalling a SessionError. -/
theorem c2_counterexample :
    establishScan (initState "http://h") [] StreamEnd.eof = .ok (initState "http://h")
    ∧ (initState "http://h").message_url = none :=
  ⟨rfl, rfl⟩

/-- Whether an establishment line has one of the two session-discovery
shapes that terminate the scan. -/
def isEstMatch : EstLine → Bool
  | .data (.sessionMatch _ _) => true
  | .data (.messagePath _) => true
  | _ => false

theorem establishScan_no_match (st : SessionState) :
    ∀ (lines : List EstLine), (∀ l ∈ lines, isEstMatch l = false) →
      ∀ e, establishScan st lines e = establishScan st [] e
  | [], _, _ => rfl
  | l :: rest, h, e => by
      have hl := h l (List.mem_cons_self l rest)
      have ih := establishScan_no_match st rest (fun x hx => h x (List.mem_cons_of_mem l hx)) e
      cases l with
      | notData => simpa [establishScan] using ih
      | data p =>
          cases p with
          | sessionMatch sid raw => simp [isEstMatch] at hl
          | messagePath raw => simp [isEstMatch] at hl
          | sessionNoMatch => simpa [establishScan] using ih
          | otherData => simpa [establishScan] using ih

/-- C2 amended: when the stream carries no session-discovery line,
establishment raises only if the stream read itself raises; on a clean
end of stream it returns normally with the session state unchanged (so
still unset), and call_tool then converts the missing endpoint into the
-32603 "Failed to establish session" envelope. -/
theorem c2_amended (st : SessionState) (lines : List EstLine)
    (hnm : ∀ l ∈ lines, isEstMatch l = false) :
    establishScan st lines StreamEnd.eof = .ok st
    ∧ establishScan st lines StreamEnd.err = .exn "stream read failed"
    ∧ ∀ (name : String) (args : Json) (env : CallEnv),
        st.message_url = none → env.firstEstablish = (lines, StreamEnd.eof) →
          (call_tool st name args env).result
            = .ok (st, some (errorEnvelope "Failed to establish session")) := by
  have h1 := establishScan_no_match st lines hnm StreamEnd.eof
  have h2 := establishScan_no_match st lines hnm StreamEnd.err
  refine ⟨h1, h2, ?_⟩
  intro name args env hmu henv
  simp [call_tool, henv, hmu, h1, establishScan]

/-- Witness for C2 amended at a concrete no-match stream. -/
theorem c2_amended_witness :
    establishScan (initState "http://h")
        [EstLine.notData, EstLine.data EstPayload.otherData] StreamEnd.eof
      = .ok (initState "http://h")
    ∧ establishScan (initState "http://h")
        [EstLine.notData, EstLine.data EstPayload.otherData] StreamEnd.err
      = .exn "stream read failed"
    ∧ (call_tool (initState "http://h") "x" (.obj [])
        { firstEstablish := ([EstLine.notData, EstLine.data EstPayload.otherData], StreamEnd.eof)
          postResp := PostResponse.timeout
          reEstablish := ([], StreamEnd.eof)
          fallbackResp := SSEPostResponse.exn "u" }).result
      = .ok (initState "http://h", some (errorEnvelope "Failed to establish session")) := by
  have h := c2_amended (initState "http://h")
      [EstLine.notData, EstLine.data EstPayload.otherData]
      (by intro l hl; fin_cases hl <;> rfl)
  exact ⟨h.1, h.2.1, h.2.2 "x" (.obj []) _ rfl rfl⟩

/-- Whether a piece of Python code returned normally. -/
def PyResult.isOk {α : Type} : PyResult α → Bool
  | .ok _ => true
  | .exn _ => false

/-- C3 counterexample: a transport exception during the POST followed
by a failing re-establishment inside the exception handler makes
call_tool itself raise — the exception crosses the SessionClient
boundary instead of being converted to an envelope. -/
theorem c3_counterexample :
    (call_tool
        { server_url := "http://h", request_id := 0,
          session_id := some "abc", message_url := some "http://h/m" }
        "x" (.obj [])
        { firstEstablish := ([], StreamEnd.eof)
          postResp := PostResponse.exn "Connection reset by peer"
          reEstablish := ([], StreamEnd.err)
          fallbackResp := SSEPostResponse.exn "unused" }).result
      = .exn "stream read failed" := rfl

/-- An establishment stream behaviour that can never raise, whatever
state it is run from. -/
def estNoRaise (p : List EstLine × StreamEnd) : Prop :=
  ∀ (st : SessionState) (m : String), establishScan st p.1 p.2 ≠ .exn m

theorem exceptPath_isOk (s : SessionState) (m : String)
    (re : List EstLine × StreamEnd) (sent : List Request) (h : estNoRaise re) :
    ((exceptPath s m re sent).result).isOk = true := by
  unfold exceptPath
  cases hscan : establishScan s re.1 re.2 with
  | ok s2 => rfl
  | exn m2 => exact absurd hscan (h s m2)

theorem callToolTry_isOk (st2 : SessionState) (req : Request) (name : String)
    (args : Json) (env : CallEnv) (h2 : estNoRaise env.reEstablish) :
    ((callToolTry st2 req name args env).result).isOk = true := by
  unfold callToolTry
  repeat' split
  all_goals first
    | rfl
    | exact exceptPath_isOk _ _ _ _ h2

/-- C3 amended: call_tool never lets an exception cross the component
boundary — it always returns a value — provided the establishment
attempts it may trigger (the inline one before the POST and the
re-establishment inside the exception handler) do not themselves raise;
when one of those raises, the exception propagates to the caller. -/
theorem c3_amended (st : SessionState) (name : String) (args : Json) (env : CallEnv)
    (h1 : estNoRaise env.firstEstablish) (h2 : estNoRaise env.reEstablish) :
    ((call_tool st name args env).result).isOk = true := by
  unfold call_tool
  split
  next m heq =>
    exfalso
    split at heq
    next => exact h1 st m heq
    next => exact PyResult.noConfusion heq
  next st1 heq =>
    split
    next => rfl
    next => exact callToolTry_isOk _ _ _ _ _ h2

/-- Witness for C3 amended at a concrete call whose POST raises but
whose re-establishment stream ends cleanly. -/
theorem c3_amended_witness :
    ((call_tool
        { server_url := "http://h", request_id := 0,
          session_id := some "abc", message_url := some "http://h/m" }
        "x" (.obj [])
        { firstEstablish := ([], StreamEnd.eof)
          postResp := PostResponse.exn "Connection reset by peer"
          reEstablish := ([], StreamEnd.eof)
          fallbackResp := SSEPostResponse.exn "unused" }).result).isOk = true :=
  c3_amended _ "x" (.obj []) _
    (fun _ _ h => PyResult.noConfusion h)
    (fun _ _ h => PyResult.noConfusion h)

/-- Witness for C7 at a concrete response: the empty dict normalizes to
a fixed envelope, and normalizing that envelope again is the
identity. -/
theorem c7_witness :
    process_tool_response
        (Json.obj [("jsonrpc", .str "2.0"), ("id", .null),
                   ("result", .obj [("isError", .bool false), ("content", .str "")])]) =
      .ok (Json.obj [("jsonrpc", .str "2.0"), ("id", .null),
                     ("result", .obj [("isError", .bool false), ("content", .str "")])]) :=
  c7_normalization_idempotent (Json.obj []) _ rfl

/-- Whether a body line is the terminal sentinel line. -/
def isDoneLine : SSEBodyLine → Bool
  | .data .done => true
  | _ => false

/-- Specification-side classification of one line for the fallback
scan: the payload dict when the line decodes to a JSON object whose id
equals the request id, nothing otherwise. -/
def lineMatch (rid : Nat) : SSEBodyLine → Option JDict
  | .data (.json (.obj kvs)) =>
      if pyEqInt (jget kvs "id") (rid : Int) then some kvs else none
  | _ => none

/-- Specification-side reading of the fallback scan: the first matching
dict among the lines that precede the terminal sentinel. -/
def firstFallbackMatch (rid : Nat) (lines : List SSEBodyLine) : Option JDict :=
  (lines.takeWhile (fun l => !isDoneLine l)).findSome? (lineMatch rid)

theorem sseFallbackScan_eq_firstMatch (rid : Nat) :
    ∀ lines : List SSEBodyLine, sseFallbackScan rid lines = firstFallbackMatch rid lines
  | [] => rfl
  | .notData :: rest => by
      simpa [sseFallbackScan, firstFallbackMatch, isDoneLine, lineMatch,
             List.takeWhile_cons] using sseFallbackScan_eq_firstMatch rid rest
  | .data .done :: _ => by
      simp [sseFallbackScan, firstFallbackMatch, isDoneLine, List.takeWhile_cons]
  | .data .digits :: rest => by
      simpa [sseFallbackScan, firstFallbackMatch, isDoneLine, lineMatch,
             List.takeWhile_cons] using sseFallbackScan_eq_firstMatch rid rest
  | .data .garbage :: rest => by
      simpa [sseFallbackScan, firstFallbackMatch, isDoneLine, lineMatch,
             List.takeWhile_cons] using sseFallbackScan_eq_firstMatch rid rest
  | .data (.json .null) :: rest => by
      simpa [sseFallbackScan, firstFallbackMatch, isDoneLine, lineMatch,
             List.takeWhile_cons] using sseFallbackScan_eq_firstMatch rid rest
  | .data (.json (.bool b)) :: rest => by
      simpa [sseFallbackScan, firstFallbackMatch, isDoneLine, lineMatch,
             List.takeWhile_cons] using sseFallbackScan_eq_firstMatch rid rest
  | .data (.json (.num n)) :: rest => by
      simpa [sseFallbackScan, firstFallbackMatch, isDoneLine, lineMatch,
             List.takeWhile_cons] using sseFallbackScan_eq_firstMatch rid rest
  | .data (.json (.str s)) :: rest => by
      simpa [sseFallbackScan, firstFallbackMatch, isDoneLine, lineMatch,
             List.takeWhile_cons] using sseFallbackScan_eq_firstMatch rid rest
  | .data (.json (.arr es)) :: rest => by
      simpa [sseFallbackScan, firstFallbackMatch, isDoneLine, lineMatch,
             List.takeWhile_cons] using sseFallbackScan_eq_firstMatch rid rest
  | .data (.json (.obj kvs)) :: rest => by
      have ih := sseFallbackScan_eq_firstMatch rid rest
      by_cases hid : pyEqInt (jget kvs "id") (rid : Int) = true
      · simp [sseFallbackScan, firstFallbackMatch, isDoneLine, lineMatch, hid,
              List.takeWhile_cons]
      · simpa [sseFallbackScan, firstFallbackMatch, isDoneLine, lineMatch, hid,
               List.takeWhile_cons] using ih

/-- C4: in the stream-fallback scan, bare-number data lines and
unparseable data lines are skipped without aborting the scan; the scan
resolves to exactly the first data line before the sentinel that parses
as a JSON object whose id equals the request id (the dict the call then
processes); when no such line exists, the call returns the -32603 "No
response received" envelope. -/
theorem c4_fallback_scan (st : SessionState) (name : String) (args : Json)
    (lines : List SSEBodyLine) :
    (∀ (n : Int) (rest : List SSEBodyLine),
        sseFallbackScan (st.request_id + 1)
            (SSEBodyLine.data (DataPayload.json (Json.num n)) :: rest)
          = sseFallbackScan (st.request_id + 1) rest)
    ∧ (∀ rest : List SSEBodyLine,
        sseFallbackScan (st.request_id + 1) (SSEBodyLine.data DataPayload.digits :: rest)
          = sseFallbackScan (st.request_id + 1) rest)
    ∧ (∀ rest : List SSEBodyLine,
        sseFallbackScan (st.request_id + 1) (SSEBodyLine.data DataPayload.garbage :: rest)
          = sseFallbackScan (st.request_id + 1) rest)
    ∧ (firstFallbackMatch (st.request_id + 1) lines = none →
        (call_tool_via_sse st name args (.stream lines)).2.2
          = errorEnvelope "No response received")
    ∧ (∀ kvs : JDict, firstFallbackMatch (st.request_id + 1) lines = some kvs →
        (call_tool_via_sse st name args (.stream lines)).2.2
          = match process_tool_response (.obj kvs) with
            | .ok v => v
            | .exn msg => errorEnvelope msg) := by
  refine ⟨fun n rest => rfl, fun rest => rfl, fun rest => rfl, ?_, ?_⟩
  · intro h
    simp [call_tool_via_sse, getNextId, sseFallbackScan_eq_firstMatch, h]
  · intro kvs h
    simp [call_tool_via_sse, getNextId, sseFallbackScan_eq_firstMatch, h]

/-- Witness for C4: a bare numeric line followed by garbage and then a
matching JSON object resolves to the processed object; a stream with
only skippable lines yields the no-response envelope. -/
theorem c4_fallback_scan_witness :
    (call_tool_via_sse (initState "http://h") "t" (.obj [])
        (.stream [SSEBodyLine.data (DataPayload.json (Json.num 7)),
                  SSEBodyLine.data DataPayload.garbage,
                  SSEBodyLine.data (DataPayload.json (Json.obj
                    [("id", Json.num 1),
                     ("result", Json.obj [("content", Json.str "hi")])]))])).2.2
      = Json.obj [("jsonrpc", .str "2.0"), ("id", .num 1),
                  ("result", .obj [("isError", .bool false), ("content", .str "hi")])]
    ∧ (call_tool_via_sse (initState "http://h") "t" (.obj [])
        (.stream [SSEBodyLine.data DataPayload.digits])).2.2
      = errorEnvelope "No response received" := by
  refine ⟨?_, ?_⟩
  · exact (c4_fallback_scan (initState "http://h") "t" (.obj [])
        [SSEBodyLine.data (DataPayload.json (Json.num 7)),
         SSEBodyLine.data DataPayload.garbage,
         SSEBodyLine.data (DataPayload.json (Json.obj
           [("id", Json.num 1),
            ("result", Json.obj [("content", Json.str "hi")])]))]).2.2.2.2
      [("id", Json.num 1), ("result", Json.obj [("content", Json.str "hi")])] rfl
  · exact (c4_fallback_scan (initState "http://h") "t" (.obj [])
        [SSEBodyLine.data DataPayload.digits]).2.2.2.1 rfl

/-- C5 counterexample: when the 200 body is neither SSE-shaped nor
JSON, the fallback re-send allocates a fresh correlation id: the POSTed
request carries id 1, the request re-sent on the stream path carries id
2, so the fallback request does not carry the same id. -/
theorem c5_counterexample :
    (call_tool
        { server_url := "http://h", request_id := 0,
          session_id := some "abc", message_url := some "http://h/m" }
        "t" (.obj [("operation", .str "get_result")])
        { firstEstablish := ([], StreamEnd.eof)
          postResp := PostResponse.status 200 (PostBody.direct none)
          reEstablish := ([], StreamEnd.eof)
          fallbackResp := SSEPostResponse.stream [] }).sent
      = [mkRequest "t" (.obj [("operation", .str "get_result")]) 1,
         mkRequest "t" (.obj [("operation", .str "get_result")]) 2]
    ∧ (mkRequest "t" (.obj [("operation", .str "get_result")]) 2).id
        ≠ (mkRequest "t" (.obj [("operation", .str "get_result")]) 1).id :=
  ⟨rfl, by decide⟩

/-- C5 amended: the fallback path re-sends a request with the same
method, tool name and arguments as the original POST, but under a
freshly allocated correlation id, one greater than the POSTed id —
not the same id. -/
theorem c5_amended (st : SessionState) (name : String) (args : Json) (env : CallEnv)
    (u : String) (hmu : st.message_url = some u)
    (hbody : env.postResp = PostResponse.status 200 (PostBody.direct none)) :
    (call_tool st name args env).sent
      = [mkRequest name args (st.request_id + 1),
         mkRequest name args ((st.request_id + 1) + 1)] := by
  simp [call_tool, hmu, callToolTry, hbody, call_tool_via_sse, getNextId, mkRequest]

/-- Witness for C5 amended at a concrete state and environment. -/
theorem c5_amended_witness :
    (call_tool
        { server_url := "http://h", request_id := 0,
          session_id := some "abc", message_url := some "http://h/m" }
        "t" (.obj [])
        { firstEstablish := ([], StreamEnd.eof)
          postResp := PostResponse.status 200 (PostBody.direct none)
          reEstablish := ([], StreamEnd.eof)
          fallbackResp := SSEPostResponse.exn "boom" }).sent
      = [mkRequest "t" (.obj []) 1, mkRequest "t" (.obj []) 2] :=
  c5_amended _ "t" (.obj []) _ "http://h/m" rfl rfl

/-- Whether a content item can be joined: a dict typed "text" must
carry a string (or absent, defaulted to "") text field; everything else
never reaches the join. -/
def textFieldOk : Json → Bool
  | .obj kvs =>
      if isStrVal (jget kvs "type") "text" then
        match jgetD kvs "text" (.str "") with
        | .str _ => true
        | _ => false
      else true
  | _ => true

/-- Specification-side extraction: the text of each text-typed dict
item, in order; every non-text item contributes nothing. -/
def specTextFragments : List Json → List String
  | [] => []
  | item :: rest =>
      match item with
      | .obj kvs =>
          if isStrVal (jget kvs "type") "text" then
            match jgetD kvs "text" (.str "") with
            | .str s => s :: specTextFragments rest
            | _ => specTextFragments rest
          else specTextFragments rest
      | _ => specTextFragments rest

theorem asStrings_textParts : ∀ items : List Json, items.all textFieldOk = true →
    asStrings (textPartsOf items) = some (specTextFragments items)
  | [], _ => rfl
  | item :: rest, hok => by
      simp only [List.all_cons, Bool.and_eq_true] at hok
      obtain ⟨hitem, hrest⟩ := hok
      have ih := asStrings_textParts rest hrest
      cases item with
      | null => simpa [textPartsOf, specTextFragments] using ih
      | bool b => simpa [textPartsOf, specTextFragments] using ih
      | num n => simpa [textPartsOf, specTextFragments] using ih
      | str s => simpa [textPartsOf, specTextFragments] using ih
      | arr es => simpa [textPartsOf, specTextFragments] using ih
      | obj kvs =>
          by_cases ht : isStrVal (jget kvs "type") "text" = true
          · simp only [textFieldOk, ht, if_true] at hitem
            rcases htext : jgetD kvs "text" (.str "") with _ | b | n | s | es | kv
            · simp [htext] at hitem
            · simp [htext] at hitem
            · simp [htext] at hitem
            · simp [textPartsOf, specTextFragments, ht, htext, asStrings, ih]
            · simp [htext] at hitem
            · simp [htext] at hitem
          · have ht' : isStrVal (jget kvs "type") "text" = false :=
              Bool.eq_false_iff.mpr ht
            simpa [textPartsOf, specTextFragments, ht'] using ih

/-- C8: for a response whose result is a dict with a content list whose
text-typed items carry string text, normalization returns the envelope
whose combined content is the newline-join of the text-typed items'
texts in order (fragments "a" and "b" join into "a", newline, "b");
non-text items are excluded from the join and the call does not
fail. -/
theorem c8_content_join (d rkvs : JDict) (items : List Json)
    (herr : hasKey d "error" = false)
    (hres : jgetD d "result" (.obj []) = .obj rkvs)
    (hcontent : jgetD rkvs "content" (.arr []) = .arr items)
    (hok : items.all textFieldOk = true) :
    process_tool_response (.obj d)
      = .ok (.obj [("jsonrpc", .str "2.0"), ("id", jget d "id"),
                   ("result", .obj [("isError", jgetD rkvs "isError" (.bool false)),
                                    ("content",
                                     .str (pyJoin "\n" (specTextFragments items)))])]) := by
  have hstr := asStrings_textParts items hok
  simp [process_tool_response, herr, hres, contentParts, hcontent, hstr]

/-- Witness for C8: fragments "a" and "b" plus a resource_link item
normalize to combined text "a", newline, "b" with the link excluded. -/
theorem c8_content_join_witness :
    process_tool_response (.obj
        [("id", Json.num 3),
         ("result", Json.obj [("content", Json.arr
            [Json.obj [("type", Json.str "text"), ("text", Json.str "a")],
             Json.obj [("type", Json.str "text"), ("text", Json.str "b")],
             Json.obj [("type", Json.str "resource_link"), ("name", Json.str "Image"),
                       ("uri", Json.str "u")]])])])
      = .ok (.obj [("jsonrpc", .str "2.0"), ("id", Json.num 3),
                   ("result", .obj [("isError", .bool false),
                                    ("content", .str "a\nb")])]) := by
  have h := c8_content_join
      [("id", Json.num 3),
       ("result", Json.obj [("content", Json.arr
          [Json.obj [("type", Json.str "text"), ("text", Json.str "a")],
           Json.obj [("type", Json.str "text"), ("text", Json.str "b")],
           Json.obj [("type", Json.str "resource_link"), ("name", Json.str "Image"),
                     ("uri", Json.str "u")]])])]
      [("content", Json.arr
          [Json.obj [("type", Json.str "text"), ("text", Json.str "a")],
           Json.obj [("type", Json.str "text"), ("text", Json.str "b")],
           Json.obj [("type", Json.str "resource_link"), ("name", Json.str "Image"),
                     ("uri", Json.str "u")]])]
      [Json.obj [("type", Json.str "text"), ("text", Json.str "a")],
       Json.obj [("type", Json.str "text"), ("text", Json.str "b")],
       Json.obj [("type", Json.str "resource_link"), ("name", Json.str "Image"),
                 ("uri", Json.str "u")]]
      rfl rfl rfl rfl
  exact h

/-- C9 counterexample: POST /call with body {} is answered with status
400, but the exact error body wraps the word tool in single quotes, so
it differs from the claimed body whose message has no quotes. -/
theorem c9_counterexample :
    handle_tool_call (some (.obj [])) (.obj []) (fun _ => none)
      = (400, .jsonBody (.obj [("error", .str "Missing \x27tool\x27 parameter")]))
    ∧ handle_tool_call (some (.obj [])) (.obj []) (fun _ => none)
      ≠ (400, .jsonBody (.obj [("error", .str "Missing tool parameter")])) := by
  refine ⟨rfl, ?_⟩
  intro h
  simp [handle_tool_call, jget, jlookup, pyTruthy] at h

/-- C9 amended: POST /call with a dict body carrying no tool name is
answered with HTTP 400 and exact body whose error message is Missing
(single-quote)tool(single-quote) parameter, whatever the client would
have returned and however content would have parsed. -/
theorem c9_amended (callRes : Json) (jsonParse : String → Option Json) :
    handle_tool_call (some (.obj [])) callRes jsonParse
      = (400, .jsonBody (.obj [("error", .str "Missing \x27tool\x27 parameter")])) := rfl

/-- Whether a JSON value is a list. -/
def jsonIsArr : Json → Bool
  | .arr _ => true
  | _ => false

/-- Whether a JSON value is a string. -/
def jsonIsStr : Json → Bool
  | .str _ => true
  | _ => false

/-- C10: when the result is a dict whose content value is neither a
list nor a string (including when the field is absent), normalization
returns a fresh envelope whose content text is empty, preserving the
result's error flag and the original id; the response is not passed
through unchanged and no failure occurs. -/
theorem c10_odd_content (d rkvs : JDict)
    (herr : hasKey d "error" = false)
    (hres : jgetD d "result" (.obj []) = .obj rkvs)
    (hcontent : ∀ v, jlookup rkvs "content" = some v →
        jsonIsArr v = false ∧ jsonIsStr v = false) :
    process_tool_response (.obj d)
      = .ok (.obj [("jsonrpc", .str "2.0"), ("id", jget d "id"),
                   ("result", .obj [("isError", jgetD rkvs "isError" (.bool false)),
                                    ("content", .str "")])])
    ∧ Json.obj [("jsonrpc", .str "2.0"), ("id", jget d "id"),
                ("result", .obj [("isError", jgetD rkvs "isError" (.bool false)),
                                 ("content", .str "")])] ≠ .obj d := by
  have hparts : contentParts (jgetD rkvs "content" (.arr [])) = [] := by
    cases hc : jlookup rkvs "content" with
    | none => simp [jgetD, hc, contentParts, textPartsOf]
    | some v =>
        obtain ⟨ha, hs⟩ := hcontent v hc
        cases v with
        | arr es => simp [jsonIsArr] at ha
        | str s => simp [jsonIsStr] at hs
        | null => simp [jgetD, hc, contentParts]
        | bool b => simp [jgetD, hc, contentParts]
        | num n => simp [jgetD, hc, contentParts]
        | obj kv => simp [jgetD, hc, contentParts]
  refine ⟨?_, ?_⟩
  · simp [process_tool_response, herr, hres, hparts, asStrings, pyJoin]
  · intro heq
    injection heq with hL
    have hres2 := hres
    rw [← hL] at hres2
    simp [jgetD, jlookup] at hres2
    have hbad := hcontent (Json.str "") (by rw [← hres2]; simp [jlookup])
    simp [jsonIsStr] at hbad

/-- Witness for C10 at a concrete response whose content is a dict. -/
theorem c10_odd_content_witness :
    process_tool_response (.obj
        [("id", Json.num 7),
         ("result", Json.obj [("isError", Json.bool true), ("content", Json.obj [])])])
      = .ok (.obj [("jsonrpc", .str "2.0"), ("id", Json.num 7),
                   ("result", .obj [("isError", Json.bool true), ("content", .str "")])])
    ∧ Json.obj [("jsonrpc", .str "2.0"), ("id", Json.num 7),
                ("result", .obj [("isError", Json.bool true), ("content", .str "")])]
      ≠ .obj [("id", Json.num 7),
              ("result", Json.obj [("isError", Json.bool true),
                                   ("content", Json.obj [])])] := by
  have h := c10_odd_content
      [("id", Json.num 7),
       ("result", Json.obj [("isError", Json.bool true), ("content", Json.obj [])])]
      [("isError", Json.bool true), ("content", Json.obj [])]
      rfl rfl
      (by intro v hv
          simp [jlookup] at hv
          subst hv
          exact ⟨rfl, rfl⟩)
  exact h

end HuskyBridge
